import Mathlib

/-! A shallow embedding of `src/python/ray/experimental/state/state_cli.py`:
the state CLI's output formatter (`format_print`, `print_state_api_output`)
and the address resolution performed by the `list` and `summary` command
groups.  Console output is modelled as the `String` a run emits on stdout
(`print(x)` appends `x ++ "\n"`, `print(x, end="")` appends `x`); a raised
exception is modelled as an `Option PyErr` alongside the output emitted
before the raise.
-/

namespace StateCli

/-- A Python exception, as (class name, message). -/
structure PyErr where
  etype : String
  msg : String
deriving DecidableEq

/-- A JSON-like Python value as handled by the formatter: the records the
state API returns hold strings, integers, booleans, `None`, lists, and
nested dicts (dicts keep insertion order, modelled as association lists). -/
inductive Val where
  | str : String → Val
  | int : Int → Val
  | bool : Bool → Val
  | null : Val
  | list : List Val → Val
  | dict : List (String × Val) → Val

/-- A resource record: a Python dict from field name to value. -/
abbrev Record := List (String × Val)

/-- The `Union[dict, list]` argument of `print_state_api_output`: either a
sequence of records or a mapping from identifier to record. -/
inductive StateData where
  | list : List Record → StateData
  | dict : List (String × Record) → StateData

/-- Python `len` of the state collection. -/
def stateLen : StateData → Nat
  | .list l => l.length
  | .dict m => m.length

/-- Concatenation of a list of strings (Python `"".join`). -/
def concatAll : List String → String
  | [] => ""
  | x :: xs => x ++ concatAll xs

/-- Python `sep.join(l)`: the strings of `l` interleaved with `sep`. -/
def joinSep (sep : String) : List String → String
  | [] => ""
  | [x] => x
  | x :: y :: xs => x ++ sep ++ joinSep sep (y :: xs)

/-- One-character string. -/
def str1 (c : Char) : String := ⟨[c]⟩

/-- The single-quote character (used by Python `repr` of strings). -/
def squote : Char := Char.ofNat 39

/-- The `"".join(["\t" for _ in range(indentation)])` of `format_print`. -/
def tabs (n : Nat) : String := concatAll (List.replicate n "\t")

/-- The `"".join(["-" for _ in range(60)])` separator line body. -/
def sixtyDashes : String := concatAll (List.replicate 60 "-")

/-- Python `enumerate`, starting from `i`. -/
def enumerateFrom (i : Nat) : List α → List (Nat × α)
  | [] => []
  | x :: xs => (i, x) :: enumerateFrom (i + 1) xs

/-- Lower-case hexadecimal digit. -/
def hexDigit : Nat → Char
  | 0 => Char.ofNat 48 | 1 => Char.ofNat 49 | 2 => Char.ofNat 50 | 3 => Char.ofNat 51
  | 4 => Char.ofNat 52 | 5 => Char.ofNat 53 | 6 => Char.ofNat 54 | 7 => Char.ofNat 55
  | 8 => Char.ofNat 56 | 9 => Char.ofNat 57 | 10 => Char.ofNat 97 | 11 => Char.ofNat 98
  | 12 => Char.ofNat 99 | 13 => Char.ofNat 100 | 14 => Char.ofNat 101 | _ => Char.ofNat 102

/-- The decimal digits of a positive natural number, most significant
first (empty for 0). -/
def natDecChars : Nat → List Char
  | 0 => []
  | n + 1 => natDecChars ((n + 1) / 10) ++ [hexDigit ((n + 1) % 10)]
decreasing_by exact Nat.div_lt_self (Nat.succ_pos n) (by omega)

/-- Decimal representation of a natural number. -/
def natRepr (n : Nat) : String := if n = 0 then "0" else ⟨natDecChars n⟩

/-- Python `str` of an integer: decimal digits, `-`-prefixed if negative.
(`json.dumps` renders integers the same way.) -/
def intRepr : Int → String
  | .ofNat m => natRepr m
  | .negSucc m => "-" ++ natRepr (m + 1)

/-- Escaping of one character inside Python `repr` of a string (backslash,
quote, newline, carriage return and tab are escaped; others kept). -/
def pyEscapeChar (c : Char) : String :=
  if c = Char.ofNat 92 then "\\\\"
  else if c = squote then "\\" ++ str1 squote
  else if c = Char.ofNat 10 then "\\n"
  else if c = Char.ofNat 13 then "\\r"
  else if c = Char.ofNat 9 then "\\t"
  else str1 c

/-- Python `repr` of a string: single-quoted with escapes (CPython switches
to double quotes when the text holds a single quote and no double quote;
that cosmetic case is not needed by any claim and is not modelled). -/
def pyReprStr (s : String) : String :=
  str1 squote ++ concatAll (s.data.map pyEscapeChar) ++ str1 squote

mutual

/-- Python `repr` of a value (what `str` falls back to for non-strings). -/
def pyRepr : Val → String
  | .str s => pyReprStr s
  | .int n => intRepr n
  | .bool b => cond b ("True") ("False")
  | .null => "None"
  | .list xs => "[" ++ joinSep (", ") (pyReprL xs) ++ "]"
  | .dict kvs => "\x7b" ++ joinSep (", ") (pyReprP kvs) ++ "\x7d"

/-- Python `repr` of the elements of a list. -/
def pyReprL : List Val → List String
  | [] => []
  | v :: vs => pyRepr v :: pyReprL vs

/-- Python `repr` of the entries of a dict. -/
def pyReprP : List (String × Val) → List String
  | [] => []
  | (k, v) :: kvs => (pyReprStr k ++ ": " ++ pyRepr v) :: pyReprP kvs

end

/-- Python `str` of a value, as used by the f-string `f" {v}"` in
`format_print`: a string prints verbatim, anything else via `repr`. -/
def pyStr : Val → String
  | .str s => s
  | .int n => pyRepr (.int n)
  | .bool b => pyRepr (.bool b)
  | .null => pyRepr .null
  | .list xs => pyRepr (.list xs)
  | .dict kvs => pyRepr (.dict kvs)

/-- The function `format_print(data, indentation)`: one line per key at the current
indentation; a dict value recurses at `indentation + 1` after the bare
`"{tabs}{k}:"` header, any other value is printed inline after one space.
The Python default argument is `indentation=1`; call sites pass it
explicitly here. -/
def format_print : List (String × Val) → Nat → String
  | [], _ => ""
  | (k, v) :: rest, ind =>
    tabs ind ++ k ++ ":" ++
      (match v with
       | Val.dict kvs => "\n" ++ format_print kvs (ind + 1)
       | Val.str s => " " ++ pyStr (Val.str s) ++ "\n"
       | Val.int n => " " ++ pyStr (Val.int n) ++ "\n"
       | Val.bool b => " " ++ pyStr (Val.bool b) ++ "\n"
       | Val.null => " " ++ pyStr Val.null ++ "\n"
       | Val.list xs => " " ++ pyStr (Val.list xs) ++ "\n") ++
    format_print rest ind

/-- Escaping of one character inside a `json.dumps` string literal: quote,
backslash and the common control characters get two-character escapes, the
remaining control characters a `\u00..` escape, everything else is kept
(non-ASCII characters, which CPython additionally escapes under its default
`ensure_ascii=True`, are kept literal; no claim depends on them). -/
def jsonEscapeChar (c : Char) : String :=
  if c = Char.ofNat 34 then "\\\""
  else if c = Char.ofNat 92 then "\\\\"
  else if c = Char.ofNat 10 then "\\n"
  else if c = Char.ofNat 9 then "\\t"
  else if c = Char.ofNat 13 then "\\r"
  else if c.toNat < 32 then
    "\\u00" ++ str1 (hexDigit (c.toNat / 16)) ++ str1 (hexDigit (c.toNat % 16))
  else str1 c

/-- Serialisation `json.dumps` of a string: double-quoted with escapes. -/
def jsonStr (s : String) : String :=
  str1 (Char.ofNat 34) ++ concatAll (s.data.map jsonEscapeChar) ++ str1 (Char.ofNat 34)

mutual

/-- Serialisation `json.dumps` of a value, with CPython's default separators
`", "` and `": "` and no indentation. -/
def jsonDumpsVal : Val → String
  | .str s => jsonStr s
  | .int n => intRepr n
  | .bool b => cond b ("true") ("false")
  | .null => "null"
  | .list xs => "[" ++ joinSep (", ") (jsonDumpsL xs) ++ "]"
  | .dict kvs => "\x7b" ++ joinSep (", ") (jsonDumpsP kvs) ++ "\x7d"

/-- Serialisation of the elements of a list. -/
def jsonDumpsL : List Val → List String
  | [] => []
  | v :: vs => jsonDumpsVal v :: jsonDumpsL vs

/-- Serialisation of the entries of a dict (`"key": value`). -/
def jsonDumpsP : List (String × Val) → List String
  | [] => []
  | (k, v) :: kvs => (jsonStr k ++ ": " ++ jsonDumpsVal v) :: jsonDumpsP kvs

end

/-- Serialisation `json.dumps` of one record. -/
def jsonDumpsRecord (r : Record) : String :=
  "\x7b" ++ joinSep (", ") (jsonDumpsP r) ++ "\x7d"

/-- The `json.dumps(state_data)` call: the whole collection as one JSON document. -/
def jsonDumpsState : StateData → String
  | .list l => "[" ++ joinSep (", ") (l.map jsonDumpsRecord) ++ "]"
  | .dict m =>
    "\x7b" ++
      joinSep (", ") (m.map fun p => jsonStr p.1 ++ ": " ++ jsonDumpsRecord p.2) ++
    "\x7d"

/-- The final `print(f"Total {len(state_data)} entries retrieved.")` line. -/
def totalLine (n : Nat) : String := "Total " ++ toString n ++ " entries retrieved.\n"

/-- The `"Id: {id}"` block of the `default` branch for one mapping entry:
header line, recursive dump of the record, 60-dash separator line. -/
def idBlock (p : String × Record) : String :=
  "Id: " ++ p.1 ++ "\n" ++ format_print p.2 1 ++ sixtyDashes ++ "\n"

/-- The `"{resource} index: {i}"` block of the `default` branch for one
sequence element: header line, recursive dump, 60-dash separator line. -/
def indexBlock (resource : String) (p : Nat × Record) : String :=
  resource ++ " index: " ++ toString p.1 ++ "\n" ++ format_print p.2 1 ++ sixtyDashes ++ "\n"

/-- The function `print_state_api_output(state_data, format, resource)`: returns the text
emitted on stdout and, when the call raises, the exception (output printed
before the raise is kept, output after it is not reached). -/
def print_state_api_output (state_data : StateData) (format : String)
    (resource : String) : String × Option PyErr :=
  let notice : String :=
    if stateLen state_data = 0 then "No " ++ resource ++ " in the cluster\n" else ""
  if format = "default" then
    let body : String :=
      match state_data with
      | .list l => concatAll ((enumerateFrom 0 l).map (indexBlock resource))
      | .dict m => concatAll (m.map idBlock)
    (notice ++ body ++ totalLine (stateLen state_data), none)
  else if format = "json" then
    (notice ++ jsonDumpsState state_data ++ "\n" ++ totalLine (stateLen state_data), none)
  else if format = "table" then
    (notice, some ⟨"NotImplementedError", "Table formatter is not implemented yet."⟩)
  else
    (notice,
     some ⟨"ValueError",
           "Unexpected format: " ++ format ++ ". Supported formatting: [default | json | table]"⟩)

/-- Modelled from the spec: the well-known key holding the dashboard address
(`ray_constants.DASHBOARD_ADDRESS`, not part of this repository). -/
def DASHBOARD_ADDRESS : String := "dashboard_address"

/-- Modelled from the spec: the dashboard namespace of the key-value store
(`ray_constants.KV_NAMESPACE_DASHBOARD`, not part of this repository). -/
def KV_NAMESPACE_DASHBOARD : String := "dashboard"

/-- Python `bytes.decode()`: byte strings are modelled as their decoded UTF-8 text,
so decoding is the identity. -/
def pyDecode (b : String) : String := b

/-- The exception raised when the key-value lookup returned `None`. -/
def couldNotObtainAddressError : PyErr :=
  ⟨"ValueError",
   "Couldn't obtain the API server address from GCS. It is likely that " ++
   "the GCS server is down. Check gcs_server.[out | err] to see if it is " ++
   "still alive."⟩

/-- The observable trace of the address resolution performed by both command
groups: the retry budgets fixed at the client construction and at the key
lookup, the key looked up, and the outcome. -/
structure ResolveTrace where
  nums_reconnect_retry : Nat
  num_retries : Nat
  kv_key : String
  kv_namespc : String
  result : Except PyErr String

/-- The group callback of `list_state_cli_group` / `summary_state_cli_group`,
parameterised by what the key-value store returns for the dashboard-address
key (`none` models the lookup exhausting its retries without a value):
`GcsClient(address, nums_reconnect_retry=0)`, then
`internal_kv_get_with_retry(..., DASHBOARD_ADDRESS,
namespace=KV_NAMESPACE_DASHBOARD, num_retries=20)`; on `None` it raises, on
a byte string `b` it stores `"http://" + b.decode()` in the context. -/
def resolve_api_server_address (kv_value : Option String) : ResolveTrace :=
  ⟨0, 20, DASHBOARD_ADDRESS, KV_NAMESPACE_DASHBOARD,
   match kv_value with
   | none => Except.error couldNotObtainAddressError
   | some b => Except.ok ("http://" ++ pyDecode b)⟩

/-- The observable outcome of one CLI command run: the API server URL stored
in the click context (if resolution succeeded), how many calls were made to
a `list_*`/`summary_*` retrieval function, the stdout text, and the
exception that ended the run (if any). -/
structure RunResult where
  api_server_url : Option String
  apiCalls : Nat
  out : String
  err : Option PyErr

/-- One run of a `list` subcommand: the group callback resolves the address
(raising before the subcommand body on failure), then the subcommand calls
its `list_*` function once with the stored URL and formats the result. -/
def run_list_command (kv_value : Option String) (fetch : String → StateData)
    (format resource : String) : RunResult :=
  match (resolve_api_server_address kv_value).result with
  | .error e => ⟨none, 0, "", some e⟩
  | .ok url =>
    let r := print_state_api_output (fetch url) format resource
    ⟨some url, 1, r.1, r.2⟩

/-- One run of `summary cluster`: the group callback resolves the address,
then the subcommand calls `summary_cluster` once and pipes the mapping
straight into `format_print`. -/
def run_summary_cluster (kv_value : Option String)
    (fetch : String → Record) : RunResult :=
  match (resolve_api_server_address kv_value).result with
  | .error e => ⟨none, 0, "", some e⟩
  | .ok url => ⟨some url, 1, format_print (fetch url) 1, none⟩

/-- Whether no newline character occurs in `s` (a single-line string). -/
def noNLB (s : String) : Bool := s.data.all fun c => c != Char.ofNat 10

/-- Split a character list at every occurrence of `c` (Python
`str.split(c)`: `n` separators yield `n + 1` pieces). -/
def splitOnChar (c : Char) : List Char → List (List Char)
  | [] => [[]]
  | x :: xs =>
    let r := splitOnChar c xs
    if x = c then [] :: r
    else
      match r with
      | [] => [[x]]
      | y :: ys => (x :: y) :: ys

/-- The lines of an emitted output: the pieces between newline characters. -/
def linesOf (s : String) : List String :=
  (splitOnChar (Char.ofNat 10) s.data).map fun l => (⟨l⟩ : String)

/-- Python `isinstance(v, dict)`. -/
def isDictVal : Val → Bool
  | .dict _ => true
  | _ => false

/-! Helper lemmas -/

theorem noNLB_append (a b : String) : noNLB (a ++ b) = (noNLB a && noNLB b) := by
  simp [noNLB, String.data_append, List.all_append]

theorem noNLB_concatAll {l : List String} (h : ∀ x ∈ l, noNLB x = true) :
    noNLB (concatAll l) = true := by
  induction l with
  | nil => rfl
  | cons x xs ih =>
    rw [concatAll, noNLB_append, Bool.and_eq_true]
    exact ⟨h x (by simp), ih fun y hy => h y (by simp [hy])⟩

theorem noNLB_joinSep {sep : String} {l : List String} (hsep : noNLB sep = true)
    (h : ∀ x ∈ l, noNLB x = true) : noNLB (joinSep sep l) = true := by
  induction l with
  | nil => rfl
  | cons x xs ih =>
    cases xs with
    | nil => exact h x (by simp)
    | cons y ys =>
      rw [joinSep, noNLB_append, noNLB_append, Bool.and_eq_true, Bool.and_eq_true]
      exact ⟨⟨h x (by simp), hsep⟩, ih fun z hz => h z (by simp [hz])⟩

theorem hexDigit_ne_newline (n : Nat) : (hexDigit n != Char.ofNat 10) = true := by
  unfold hexDigit; split <;> decide

theorem noNLB_str1 {c : Char} (h : (c != Char.ofNat 10) = true) : noNLB (str1 c) = true := by
  simp [noNLB, str1, h]

theorem natDecChars_digits : ∀ n : Nat, ∀ c ∈ natDecChars n, ∃ k, c = hexDigit k := by
  intro n
  induction n using Nat.strong_induction_on with
  | _ n ih =>
    match n with
    | 0 => simp [natDecChars]
    | m + 1 =>
      rw [natDecChars]
      intro c hc
      rcases List.mem_append.mp hc with h1 | h2
      · exact ih ((m + 1) / 10) (Nat.div_lt_self (Nat.succ_pos m) (by omega)) c h1
      · exact ⟨(m + 1) % 10, by simpa using h2⟩

theorem noNLB_natRepr (n : Nat) : noNLB (natRepr n) = true := by
  rw [natRepr]
  split
  · decide
  · rw [noNLB]
    apply List.all_eq_true.mpr
    intro c hc
    obtain ⟨k, rfl⟩ := natDecChars_digits n c hc
    exact hexDigit_ne_newline k

theorem noNLB_intRepr (i : Int) : noNLB (intRepr i) = true := by
  cases i with
  | ofNat m => exact noNLB_natRepr m
  | negSucc m =>
    rw [intRepr, noNLB_append, Bool.and_eq_true]
    exact ⟨by decide, noNLB_natRepr (m + 1)⟩

theorem noNLB_jsonEscapeChar (c : Char) : noNLB (jsonEscapeChar c) = true := by
  rw [jsonEscapeChar]
  split
  · decide
  · split
    · decide
    · split
      · decide
      · split
        · decide
        · split
          · decide
          · split
            · rw [noNLB_append, noNLB_append, Bool.and_eq_true, Bool.and_eq_true]
              exact ⟨⟨by decide, noNLB_str1 (hexDigit_ne_newline _)⟩,
                     noNLB_str1 (hexDigit_ne_newline _)⟩
            · rename_i h1 h2 h3 h4 h5 h6
              apply noNLB_str1
              simp only [bne_iff_ne, ne_eq]
              intro hc
              exact h3 hc

theorem noNLB_jsonStr (s : String) : noNLB (jsonStr s) = true := by
  rw [jsonStr, noNLB_append, noNLB_append, Bool.and_eq_true, Bool.and_eq_true]
  refine ⟨⟨by decide, noNLB_concatAll ?_⟩, by decide⟩
  intro x hx
  obtain ⟨c, _, rfl⟩ := List.mem_map.mp hx
  exact noNLB_jsonEscapeChar c

theorem mem_jsonDumpsL {s : String} :
    ∀ {xs : List Val}, s ∈ jsonDumpsL xs → ∃ v ∈ xs, s = jsonDumpsVal v := by
  intro xs h
  induction xs with
  | nil => simp [jsonDumpsL] at h
  | cons v vs ih =>
    rw [jsonDumpsL, List.mem_cons] at h
    rcases h with h | h
    · exact ⟨v, by simp, h⟩
    · obtain ⟨w, hw, rfl⟩ := ih h
      exact ⟨w, by simp [hw], rfl⟩

theorem mem_jsonDumpsP {s : String} :
    ∀ {kvs : List (String × Val)}, s ∈ jsonDumpsP kvs →
      ∃ k v, (k, v) ∈ kvs ∧ s = jsonStr k ++ ": " ++ jsonDumpsVal v := by
  intro kvs h
  induction kvs with
  | nil => simp [jsonDumpsP] at h
  | cons p ps ih =>
    obtain ⟨k, v⟩ := p
    rw [jsonDumpsP, List.mem_cons] at h
    rcases h with h | h
    · exact ⟨k, v, by simp, h⟩
    · obtain ⟨k2, v2, hm, rfl⟩ := ih h
      exact ⟨k2, v2, by simp [hm], rfl⟩

theorem noNLB_jsonDumpsVal_bounded :
    ∀ N : Nat, ∀ v : Val, sizeOf v ≤ N → noNLB (jsonDumpsVal v) = true := by
  intro N
  induction N using Nat.strong_induction_on with
  | _ N ih =>
    intro v hv
    match v with
    | .str s => rw [jsonDumpsVal]; exact noNLB_jsonStr s
    | .int n => rw [jsonDumpsVal]; exact noNLB_intRepr n
    | .bool b => rw [jsonDumpsVal]; cases b <;> decide
    | .null => rw [jsonDumpsVal]; decide
    | .list xs =>
      rw [jsonDumpsVal, noNLB_append, noNLB_append, Bool.and_eq_true, Bool.and_eq_true]
      refine ⟨⟨by decide, noNLB_joinSep (by decide) ?_⟩, by decide⟩
      intro x hx
      obtain ⟨w, hw, rfl⟩ := mem_jsonDumpsL hx
      have h1 : sizeOf w < sizeOf xs := List.sizeOf_lt_of_mem hw
      have h2 : sizeOf (Val.list xs) = 1 + sizeOf xs := by simp
      have h3 : sizeOf w < N := by omega
      exact ih (sizeOf w) h3 w le_rfl
    | .dict kvs =>
      rw [jsonDumpsVal, noNLB_append, noNLB_append, Bool.and_eq_true, Bool.and_eq_true]
      refine ⟨⟨by decide, noNLB_joinSep (by decide) ?_⟩, by decide⟩
      intro x hx
      obtain ⟨k, w, hm, rfl⟩ := mem_jsonDumpsP hx
      rw [noNLB_append, noNLB_append, Bool.and_eq_true, Bool.and_eq_true]
      refine ⟨⟨noNLB_jsonStr k, by decide⟩, ?_⟩
      have h1 : sizeOf (k, w) < sizeOf kvs := List.sizeOf_lt_of_mem hm
      have h2 : sizeOf (Val.dict kvs) = 1 + sizeOf kvs := by simp
      have h3 : sizeOf (k, w) = 1 + sizeOf k + sizeOf w := by simp
      have h4 : sizeOf w < N := by omega
      exact ih (sizeOf w) h4 w le_rfl

theorem noNLB_jsonDumpsVal (v : Val) : noNLB (jsonDumpsVal v) = true :=
  noNLB_jsonDumpsVal_bounded (sizeOf v) v le_rfl

theorem noNLB_jsonDumpsP_mem {r : Record} {x : String} (hx : x ∈ jsonDumpsP r) :
    noNLB x = true := by
  obtain ⟨k, v, _, rfl⟩ := mem_jsonDumpsP hx
  rw [noNLB_append, noNLB_append, Bool.and_eq_true, Bool.and_eq_true]
  exact ⟨⟨noNLB_jsonStr k, by decide⟩, noNLB_jsonDumpsVal v⟩

theorem noNLB_jsonDumpsRecord (r : Record) : noNLB (jsonDumpsRecord r) = true := by
  rw [jsonDumpsRecord, noNLB_append, noNLB_append, Bool.and_eq_true, Bool.and_eq_true]
  exact ⟨⟨by decide, noNLB_joinSep (by decide) fun x hx => noNLB_jsonDumpsP_mem hx⟩, by decide⟩

theorem noNLB_jsonDumpsState_list (S : List Record) :
    noNLB (jsonDumpsState (StateData.list S)) = true := by
  rw [jsonDumpsState, noNLB_append, noNLB_append, Bool.and_eq_true, Bool.and_eq_true]
  refine ⟨⟨by decide, noNLB_joinSep (by decide) ?_⟩, by decide⟩
  intro x hx
  obtain ⟨r, _, rfl⟩ := List.mem_map.mp hx
  exact noNLB_jsonDumpsRecord r

theorem enumerateFrom_map_fst {α : Type} :
    ∀ (i : Nat) (l : List α), (enumerateFrom i l).map Prod.fst = List.range' i l.length := by
  intro i l
  induction l generalizing i with
  | nil => simp [enumerateFrom]
  | cons x xs ih => simp [enumerateFrom, List.range', ih]

theorem enumerateFrom_map_snd {α : Type} :
    ∀ (i : Nat) (l : List α), (enumerateFrom i l).map Prod.snd = l := by
  intro i l
  induction l generalizing i with
  | nil => rfl
  | cons x xs ih => simp [enumerateFrom, ih]

theorem enumerateFrom_length {α : Type} :
    ∀ (i : Nat) (l : List α), (enumerateFrom i l).length = l.length := by
  intro i l
  induction l generalizing i with
  | nil => rfl
  | cons x xs ih => simp [enumerateFrom, ih]

theorem tabs_data (n : Nat) : (tabs n).data = List.replicate n (Char.ofNat 9) := by
  induction n with
  | zero => rfl
  | succ m ih =>
    rw [tabs, List.replicate_succ, concatAll, String.data_append]
    rw [tabs] at ih
    simp [ih, List.replicate_succ]

theorem sixtyDashes_eval : sixtyDashes.data = List.replicate 60 (Char.ofNat 45) := by decide

/-! Claims, one theorem per claim -/

/-- C2: for every empty collection (empty sequence or empty mapping) with
resource name `nodes`, the output begins with the line
`No nodes in the cluster`; for formats `default` and `json` it ends with the
line `Total 0 entries retrieved.` and both lines are printed together (the
empty-check does not short-circuit); for format `table` the empty-result
notice is printed but the run raises before the footer line. -/
theorem c2_empty_nodes_output :
    (∃ mid, print_state_api_output (StateData.list []) "default" "nodes"
        = ("No nodes in the cluster\n" ++ mid ++ "Total 0 entries retrieved.\n", none))
    ∧ (∃ mid, print_state_api_output (StateData.dict []) "default" "nodes"
        = ("No nodes in the cluster\n" ++ mid ++ "Total 0 entries retrieved.\n", none))
    ∧ (∃ mid, print_state_api_output (StateData.list []) "json" "nodes"
        = ("No nodes in the cluster\n" ++ mid ++ "Total 0 entries retrieved.\n", none))
    ∧ (∃ mid, print_state_api_output (StateData.dict []) "json" "nodes"
        = ("No nodes in the cluster\n" ++ mid ++ "Total 0 entries retrieved.\n", none))
    ∧ print_state_api_output (StateData.list []) "table" "nodes"
        = ("No nodes in the cluster\n",
           some ⟨"NotImplementedError", "Table formatter is not implemented yet."⟩)
    ∧ print_state_api_output (StateData.dict []) "table" "nodes"
        = ("No nodes in the cluster\n",
           some ⟨"NotImplementedError", "Table formatter is not implemented yet."⟩) := by
  refine ⟨⟨"", ?_⟩, ⟨"", ?_⟩, ⟨"[]\n", ?_⟩, ⟨"\x7b\x7d\n", ?_⟩, ?_, ?_⟩ <;> decide

/-- C3: for every mapping `M` formatted with `default`, the output is the
(possibly empty) empty-collection notice, then exactly `len(M)` blocks, one
per key of `M` in order, each the header line `Id: {key}` followed by the
record dump and a separator line of exactly 60 dash characters, and it ends
with the line `Total {len(M)} entries retrieved.`. -/
theorem c3_default_mapping_blocks (M : List (String × Record)) (resource : String) :
    (print_state_api_output (StateData.dict M) "default" resource).1
      = (if M.length = 0 then "No " ++ resource ++ " in the cluster\n" else "")
        ++ concatAll (M.map idBlock) ++ totalLine M.length
    ∧ (M.map idBlock).length = M.length
    ∧ (∀ p : String × Record,
        idBlock p = "Id: " ++ p.1 ++ "\n" ++ format_print p.2 1 ++ sixtyDashes ++ "\n")
    ∧ sixtyDashes.data = List.replicate 60 (Char.ofNat 45)
    ∧ totalLine M.length = "Total " ++ toString M.length ++ " entries retrieved.\n" := by
  refine ⟨?_, by simp, fun p => rfl, sixtyDashes_eval, rfl⟩
  simp [print_state_api_output, stateLen]

/-- C6: for every collection and resource, format `table` raises
`NotImplementedError` with a message containing `not implemented`, and the
output holds no data records and no `Total ... entries retrieved.` footer:
only the empty-collection notice when the collection is empty, nothing
otherwise. -/
theorem c6_table_not_implemented (sd : StateData) (resource : String) :
    (print_state_api_output sd "table" resource).2
      = some ⟨"NotImplementedError", "Table formatter is not implemented yet."⟩
    ∧ (print_state_api_output sd "table" resource).1
      = (if stateLen sd = 0 then "No " ++ resource ++ " in the cluster\n" else "")
    ∧ (∃ s t, "Table formatter is not implemented yet." = s ++ "not implemented" ++ t) := by
  refine ⟨?_, ?_, ⟨"Table formatter is ", " yet.", by decide⟩⟩ <;>
    simp [print_state_api_output]

/-- C7: for every sequence of records formatted with `default`, the output
is the (possibly empty) empty-collection notice, then one block per record
in order, headed by the zero-based `"{resource} index: {i}"` line before the
record's recursive dump, each followed by a separator line of 60 dashes,
closing with the total line; the indices enumerate `0, 1, ...` over the
sequence. -/
theorem c7_default_sequence_blocks (S : List Record) (resource : String) :
    (print_state_api_output (StateData.list S) "default" resource).1
      = (if S.length = 0 then "No " ++ resource ++ " in the cluster\n" else "")
        ++ concatAll ((enumerateFrom 0 S).map (indexBlock resource)) ++ totalLine S.length
    ∧ (enumerateFrom 0 S).map Prod.fst = List.range S.length
    ∧ (enumerateFrom 0 S).map Prod.snd = S
    ∧ (∀ p : Nat × Record,
        indexBlock resource p
          = resource ++ " index: " ++ toString p.1 ++ "\n"
            ++ format_print p.2 1 ++ sixtyDashes ++ "\n")
    ∧ sixtyDashes.data = List.replicate 60 (Char.ofNat 45) := by
  refine ⟨?_, ?_, enumerateFrom_map_snd 0 S, fun p => rfl, sixtyDashes_eval⟩
  · simp [print_state_api_output, stateLen]
  · rw [enumerateFrom_map_fst, List.range_eq_range']

/-- C4: for every non-empty sequence `S` formatted with `json`, the run
prints the JSON document followed by the footer and raises nothing; the
document is the JSON array serialising exactly the records of `S` in order
(one serialised record per element, comma-separated, no indentation), and
it holds no newline character, i.e. it is a single line. -/
theorem c4_json_nonempty_sequence (S : List Record) (resource : String) (h : S ≠ []) :
    print_state_api_output (StateData.list S) "json" resource
      = (jsonDumpsState (StateData.list S) ++ "\n" ++ totalLine S.length, none)
    ∧ jsonDumpsState (StateData.list S)
      = "[" ++ joinSep (", ") (S.map jsonDumpsRecord) ++ "]"
    ∧ (S.map jsonDumpsRecord).length = S.length
    ∧ noNLB (jsonDumpsState (StateData.list S)) = true := by
  refine ⟨?_, rfl, by simp, noNLB_jsonDumpsState_list S⟩
  have hlen : S.length ≠ 0 := fun h0 => h (List.length_eq_zero.mp h0)
  simp [print_state_api_output, stateLen, hlen]

/-- Witness for C4 at the one-record sequence `[{"x": 3}]`. -/
theorem c4_witness :
    print_state_api_output (StateData.list [[("x", Val.int 3)]]) "json" "nodes"
      = ("[\x7b\"x\": 3\x7d]\nTotal 1 entries retrieved.\n", none)
    ∧ noNLB ("[\x7b\"x\": 3\x7d]") = true := by
  have h := c4_json_nonempty_sequence [[("x", Val.int 3)]] "nodes" (List.cons_ne_nil _ _)
  refine ⟨h.1.trans ?_, by decide⟩
  have : jsonDumpsState (StateData.list [[("x", Val.int 3)]]) = "[\x7b\"x\": 3\x7d]" := by
    simp [jsonDumpsState, jsonDumpsRecord, jsonDumpsP, jsonDumpsVal, jsonStr,
          jsonEscapeChar, intRepr, natRepr, natDecChars, hexDigit, joinSep,
          concatAll, str1]
  rw [this]
  decide

/-- C5 counterexample: the record `{"a": {"b": 1}}`, dumped by
`format_print` at the formatter's starting indentation 1, does not print
`a:` as a line — the line carries one leading tab. -/
theorem c5_counterexample :
    ¬ (("a:") ∈ linesOf (format_print [("a", Val.dict [("b", Val.int 1)])] 1)) := by
  have h : format_print [("a", Val.dict [("b", Val.int 1)])] 1 = "\ta:\n\t\tb: 1\n" := by
    simp [format_print, pyStr, pyRepr, intRepr, natRepr, natDecChars, hexDigit,
          tabs, concatAll]
  rw [h]
  decide

/-- C5 (amended): nested mapping values under `default` are dumped one
indentation level deeper than their parent key at every recursion depth,
with one tab character per level; the record `{"a": {"b": 1}}`, whose dump
starts at level 1, prints the line `\ta:` (one tab) and then the line
`\t\tb: 1` (two tabs). -/
theorem c5_indent_depth (ind : Nat) (k : String) (kvs rest : Record) :
    format_print ((k, Val.dict kvs) :: rest) ind
      = tabs ind ++ k ++ ":" ++ "\n" ++ format_print kvs (ind + 1) ++ format_print rest ind
    ∧ (tabs ind).data = List.replicate ind (Char.ofNat 9)
    ∧ format_print [("a", Val.dict [("b", Val.int 1)])] 1 = "\ta:\n\t\tb: 1\n"
    ∧ ("\ta:") ∈ linesOf (format_print [("a", Val.dict [("b", Val.int 1)])] 1)
    ∧ ("\t\tb: 1") ∈ linesOf (format_print [("a", Val.dict [("b", Val.int 1)])] 1) := by
  have h : format_print [("a", Val.dict [("b", Val.int 1)])] 1 = "\ta:\n\t\tb: 1\n" := by
    simp [format_print, pyStr, pyRepr, intRepr, natRepr, natDecChars, hexDigit,
          tabs, concatAll]
  refine ⟨?_, tabs_data ind, h, by rw [h]; decide, by rw [h]; decide⟩
  simp only [format_print, String.append_assoc]

/-- C8: for every format string other than `default`, `json` and `table`,
the formatter raises a `ValueError` whose message names the invalid format
value and lists the three supported values, and prints no footer line: the
output is only the empty-collection notice when the collection is empty,
nothing otherwise. -/
theorem c8_invalid_format (sd : StateData) (resource format : String)
    (h1 : format ≠ "default") (h2 : format ≠ "json") (h3 : format ≠ "table") :
    (print_state_api_output sd format resource).2
      = some ⟨"ValueError",
             "Unexpected format: " ++ format
               ++ ". Supported formatting: [default | json | table]"⟩
    ∧ (∃ s t, ("Unexpected format: " ++ format
               ++ ". Supported formatting: [default | json | table]")
          = s ++ format ++ t)
    ∧ (∃ s t, ("Unexpected format: " ++ format
               ++ ". Supported formatting: [default | json | table]")
          = s ++ ("[default | json | table]") ++ t)
    ∧ (print_state_api_output sd format resource).1
      = (if stateLen sd = 0 then "No " ++ resource ++ " in the cluster\n" else "") := by
  refine ⟨?_,
          ⟨"Unexpected format: ", ". Supported formatting: [default | json | table]",
           by rw [String.append_assoc]⟩,
          ⟨"Unexpected format: " ++ format ++ ". Supported formatting: ", "", ?_⟩,
          ?_⟩
  · simp [print_state_api_output, h1, h2, h3]
  · simp only [String.append_assoc]
    congr 2
  · simp [print_state_api_output, h1, h2, h3]

/-- Witness for C8 at format `bogus` on the empty node sequence. -/
theorem c8_witness :
    print_state_api_output (StateData.list []) "bogus" "nodes"
      = ("No nodes in the cluster\n",
         some ⟨"ValueError",
              "Unexpected format: bogus. Supported formatting: [default | json | table]"⟩) := by
  have h := c8_invalid_format (StateData.list []) "nodes" "bogus"
    (by decide) (by decide) (by decide)
  have h1 := h.1
  have h2 := h.2.2.2
  rw [Prod.ext_iff]
  refine ⟨h2.trans (by decide), h1.trans (by decide)⟩

/-- C9: the key-value client handle is constructed with zero reconnect
retries, the dashboard-address lookup runs with exactly twenty retries, and
for every successful lookup returning a byte string `b` the Dashboard
Endpoint stored in the context for the subcommands is the string `http://`
concatenated with the decoding of `b` — in both the `list` and the
`summary` group. -/
theorem c9_address_resolution (kv : Option String) (b : String)
    (fetch : String → StateData) (sfetch : String → Record)
    (format resource : String) :
    (resolve_api_server_address kv).nums_reconnect_retry = 0
    ∧ (resolve_api_server_address kv).num_retries = 20
    ∧ (resolve_api_server_address (some b)).result
        = Except.ok ("http://" ++ pyDecode b)
    ∧ (run_list_command (some b) fetch format resource).api_server_url
        = some ("http://" ++ pyDecode b)
    ∧ (run_summary_cluster (some b) sfetch).api_server_url
        = some ("http://" ++ pyDecode b) :=
  ⟨rfl, rfl, rfl, rfl, rfl⟩

/-- C1: when the coordination key-value lookup returns no value after its
retry budget, every `list` or `summary` command run fails during address
resolution with the error whose message names the inability to obtain the
API server address (the spec's `ConfigurationError`), and zero calls are
made to any `list_*`/`summary_*` retrieval function. -/
theorem c1_lookup_miss_no_api_calls (fetch : String → StateData)
    (sfetch : String → Record) (format resource : String) :
    (run_list_command none fetch format resource).apiCalls = 0
    ∧ (run_list_command none fetch format resource).err
        = some couldNotObtainAddressError
    ∧ (run_summary_cluster none sfetch).apiCalls = 0
    ∧ (run_summary_cluster none sfetch).err = some couldNotObtainAddressError
    ∧ (∃ s t, couldNotObtainAddressError.msg
        = s ++ ("obtain the API server address") ++ t) :=
  ⟨rfl, rfl, rfl, rfl,
   ⟨"Couldn't ",
    " from GCS. It is likely that the GCS server is down. " ++
    "Check gcs_server.[out | err] to see if it is still alive.",
    by decide⟩⟩

/-- C10: in the recursive dump, every key whose value is not a mapping —
a string, integer, boolean, `None` or a sequence — is printed inline on the
key's own line after a single space, with no recursion and no extra
indentation; sequence values in particular go through Python `str` in one
piece and are never expanded element by element. -/
theorem c10_non_mapping_inline (k : String) (v : Val) (rest : Record) (ind : Nat)
    (h : isDictVal v = false) :
    format_print ((k, v) :: rest) ind
      = tabs ind ++ k ++ ":" ++ " " ++ pyStr v ++ "\n" ++ format_print rest ind := by
  cases v with
  | dict kvs => simp [isDictVal] at h
  | str s => simp only [format_print, String.append_assoc]
  | int n => simp only [format_print, String.append_assoc]
  | bool b => simp only [format_print, String.append_assoc]
  | null => simp only [format_print, String.append_assoc]
  | list xs => simp only [format_print, String.append_assoc]

/-- Witness for C10 at the list-valued entry `{"a": [1]}` at indentation 1:
the sequence is printed inline, unexpanded, after one space. -/
theorem c10_witness :
    format_print [("a", Val.list [Val.int 1])] 1 = "\ta: [1]\n"
    ∧ isDictVal (Val.list [Val.int 1]) = false := by
  have h := c10_non_mapping_inline "a" (Val.list [Val.int 1]) [] 1 (by decide)
  refine ⟨h.trans ?_, by decide⟩
  simp [format_print, pyStr, pyRepr, pyReprL, intRepr, natRepr, natDecChars,
        hexDigit, joinSep, tabs, concatAll]

end StateCli
